import Mathlib

/-!
Verification development for the Epstein files downloader repository.

This file gives a shallow embedding of the behaviour-relevant parts of
`download_epstein_files.py` and `scripts/upload_to_cdn.py` and proves (or
refutes) the frozen specification claims about them.

Conventions of the embedding:
* HTTP interaction is modelled by a trace `Nat → Resp`: the response the
  network produces for the k-th attempt of a worker.
* Sleeps are recorded, not performed: each recorded sleep carries its
  deterministic base duration and the upper bound of the uniform jitter
  the code adds to it (`random.uniform(0, j)`).
* Machine floats of the source are modelled by `ℚ` (all quantities involved
  are exactly representable small rationals).
-/

namespace DojDL

/-- Retry configuration from the script header (`MAX_RETRIES = 5`). -/
def MAX_RETRIES : Nat := 5

/-- `INITIAL_BACKOFF = 1` second. -/
def INITIAL_BACKOFF : ℚ := 1

/-- `MAX_BACKOFF = 60` seconds. -/
def MAX_BACKOFF : ℚ := 60

/-- `RATE_LIMIT_PAUSE = 30` seconds to pause on a 429. -/
def RATE_LIMIT_PAUSE : ℚ := 30

/-- `REQUESTS_PER_SECOND = 20`. -/
def REQUESTS_PER_SECOND : ℚ := 20

/-- Batch size used by `main` (`batch_size = 5000`). -/
def BATCH_SIZE : Nat := 5000

/-- Outcome of one HTTP GET attempt as observed inside
`download_file_with_retry`: an HTTP status code together with the body size
(only meaningful for 200), a timeout (`asyncio.TimeoutError`), a
connection-level error (`aiohttp.ClientError`) or any other exception. -/
inductive Resp where
| status (code : Nat) (size : Nat)
| timeout
| connError
| exc
deriving DecidableEq, Repr

/-- One sleep performed by the retry loop: the deterministic base duration
and the upper bound of the uniform jitter added on top of it. -/
structure Sleep where
base : ℚ
jitterMax : ℚ
deriving DecidableEq, Repr

/-- The value a worker hands back to the orchestrator, plus instrumentation:
the `(status, msg)` part is exactly the pair of strings the Python function
returns (alongside the file number), `attemptsUsed` counts loop iterations
that were started, and `sleeps` lists the sleeps performed in order. -/
structure RunResult where
status : String
msg : String
attemptsUsed : Nat
sleeps : List Sleep
deriving DecidableEq, Repr

/-- `backoff = min(backoff * 2, MAX_BACKOFF)`. -/
def nextBackoff (b : ℚ) : ℚ := min (b * 2) MAX_BACKOFF

/-- The body of `for attempt in range(MAX_RETRIES)` in
`download_file_with_retry`, with `fuel` the number of remaining iterations,
`used` the number of iterations already started, `backoff` the current
backoff value and `acc` the sleeps performed so far.  Branches mirror the
source exactly: 200 → success, 404 → not_found, 429 → fixed 30 s pause plus
`uniform(0,5)` jitter and `continue`, 503 → backoff plus `uniform(0,2)` and
doubling, 302 → immediate "Cookie expired" failure, any other status /
timeout / client error / exception → backoff (no jitter) and doubling. -/
def retryLoop (trace : Nat → Resp) : Nat → Nat → ℚ → List Sleep → RunResult
| 0, used, _, acc => ⟨"failed", "Max retries (5) exhausted", used, acc⟩
| fuel + 1, used, backoff, acc =>
  match trace used with
  | .status code size =>
    if code = 200 then ⟨"success", toString size ++ " bytes", used + 1, acc⟩
    else if code = 404 then ⟨"not_found", "404", used + 1, acc⟩
    else if code = 429 then
      retryLoop trace fuel (used + 1) backoff (acc ++ [⟨RATE_LIMIT_PAUSE, 5⟩])
    else if code = 503 then
      retryLoop trace fuel (used + 1) (nextBackoff backoff) (acc ++ [⟨backoff, 2⟩])
    else if code = 302 then ⟨"failed", "Cookie expired - 302 redirect", used + 1, acc⟩
    else retryLoop trace fuel (used + 1) (nextBackoff backoff) (acc ++ [⟨backoff, 0⟩])
  | .timeout => retryLoop trace fuel (used + 1) (nextBackoff backoff) (acc ++ [⟨backoff, 0⟩])
  | .connError => retryLoop trace fuel (used + 1) (nextBackoff backoff) (acc ++ [⟨backoff, 0⟩])
  | .exc => retryLoop trace fuel (used + 1) (nextBackoff backoff) (acc ++ [⟨backoff, 0⟩])

/-- `download_file_with_retry` for one work item, given the network trace. -/
def download_file_with_retry (trace : Nat → Resp) : RunResult :=
retryLoop trace MAX_RETRIES 0 INITIAL_BACKOFF []

/-- A response handled by the exponential-backoff branches of the retry
loop: an HTTP 503, any unexpected status (none of 200/404/429/302, which
leaves 503 and the final `else`), a timeout, a connection-level error or
any other exception. -/
def isBackoffCase : Resp → Prop
| .status code _ => code ≠ 200 ∧ code ≠ 404 ∧ code ≠ 429 ∧ code ≠ 302
| .timeout => True
| .connError => True
| .exc => True

instance : DecidablePred isBackoffCase := fun r => by
  unfold isBackoffCase
  cases r <;> infer_instance

/-- The jitter bound the backoff branches add on top of the backoff value:
`uniform(0, 2)` for a 503, none for the other backoff branches. -/
def backoffJitter : Resp → ℚ
| .status code _ => if code = 503 then 2 else 0
| _ => 0

/-- A response that takes the 429 branch. -/
def is429 : Resp → Prop
| .status code _ => code = 429
| _ => False

instance : DecidablePred is429 := fun r => by
  unfold is429
  cases r <;> infer_instance

/-- The backoff value in force at the k-th backoff sleep, starting from
`b`: `b` doubled (and capped) `k` times. -/
def backAt (b : ℚ) : Nat → ℚ
| 0 => b
| k + 1 => backAt (nextBackoff b) k

/-- The three lists stored in `checkpoint.json`
(`checkpoint.get("completed"/"failed"/"not_found", [])`). -/
structure CheckpointData where
completed : List Nat
failed : List Nat
not_found : List Nat
deriving DecidableEq, Repr

/-- `load_checkpoint`: the parsed file when it exists and parses
(`some d`), otherwise the default of three empty lists. -/
def load_checkpoint : Option CheckpointData → CheckpointData
| some d => d
| none => ⟨[], [], []⟩

/-- `get_downloaded_files`: the destination directory is modelled as a list
of `(file number, size)` pairs (the result of globbing `EFTA*.pdf` and
parsing the numeric stem); a number counts as downloaded iff its file has
size strictly greater than zero. -/
def get_downloaded_files (disk : List (Nat × Nat)) : Finset Nat :=
((disk.filter (fun f => 0 < f.2)).map Prod.fst).toFinset

/-- `already_done = set(checkpoint.get("completed", []))` updated with the
disk scan, as computed at the start of `main`. -/
def already_done (ck : Option CheckpointData) (disk : List (Nat × Nat)) : Finset Nat :=
(load_checkpoint ck).completed.toFinset ∪ get_downloaded_files disk

/-- `to_download = [n for n in range(start_num, end_num + 1) if n not in already_done]`. -/
def to_download (s e : Nat) (ck : Option CheckpointData) (disk : List (Nat × Nat)) : List Nat :=
(List.range' s (e + 1 - s)).filter (fun n => n ∉ already_done ck disk)

/-- Slicing `to_download[i:i+batch_size]` for `i in range(0, total, batch_size)`,
written as fuel recursion (`fuel` bounds the number of slices). -/
def chunkedAux (bs : Nat) : Nat → List Nat → List (List Nat)
| 0, _ => []
| _, [] => []
| fuel + 1, x :: xs => (x :: xs).take bs :: chunkedAux bs fuel ((x :: xs).drop bs)

/-- The batches `main` forms from a work list. -/
def chunked (bs : Nat) (l : List Nat) : List (List Nat) := chunkedAux bs l.length l

/-- All work items handed to `download_batch` over the whole run: the
concatenation of the batches. -/
def dispatched (s e : Nat) (ck : Option CheckpointData) (disk : List (Nat × Nat)) : List Nat :=
(chunked BATCH_SIZE (to_download s e ck disk)).flatten

/-- The orchestrator's mutable accumulators in `main`:
`completed` (a set), `failed` and `not_found` (lists, appended to). -/
structure OState where
completed : Finset Nat
failed : List Nat
not_found : List Nat
deriving DecidableEq

/-- Processing of one `(num, status, msg)` result in `main`'s
`for num, status, msg in results` loop: `"success"` → add to `completed`;
`"not_found"` → append to `not_found` and add to `completed`
("Don't retry 404s"); anything else → append to `failed`. -/
def processOne (s : OState) (r : Nat × String × String) : OState :=
if r.2.1 = "success" then { s with completed := insert r.1 s.completed }
else if r.2.1 = "not_found" then
  { s with not_found := s.not_found ++ [r.1], completed := insert r.1 s.completed }
else { s with failed := s.failed ++ [r.1] }

/-- Processing of a whole batch's result list. -/
def processResults (s : OState) (rs : List (Nat × String × String)) : OState :=
rs.foldl processOne s

/-- The accumulators as initialised in `main` before the batch loop:
`completed = already_done.copy()`, `failed = []`, `not_found = []`. -/
def initialState (ck : Option CheckpointData) (disk : List (Nat × Nat)) : OState :=
⟨already_done ck disk, [], []⟩

/-- The sequence of orchestrator states at which `save_checkpoint` is called:
one after each processed batch. -/
def savedStates (s : OState) : List (List (Nat × String × String)) → List OState
| [] => []
| b :: bs => processResults s b :: savedStates (processResults s b) bs

/-- File-system operations, for modelling `save_checkpoint`'s effect on
`checkpoint.json`: a truncating open (`open(path, 'w')`) and a full
serialized write (`json.dump`). -/
inductive FsOp where
| openTrunc (path : String)
| writeAll (path : String) (data : CheckpointData)
deriving DecidableEq

def CHECKPOINT_FILE : String := "checkpoint.json"

/-- The operations `save_checkpoint` performs on the checkpoint path:
`with open(CHECKPOINT_FILE, 'w')` truncates the existing file in place,
then `json.dump(data, f)` writes the new snapshot into the same file.
No temporary file and no rename is involved. -/
def save_checkpoint_ops (d : CheckpointData) : List FsOp :=
[.openTrunc CHECKPOINT_FILE, .writeAll CHECKPOINT_FILE d]

/-- Content of the checkpoint file: `none` when the file is missing,
`some none` when it is present but not parseable JSON (e.g. truncated to
empty), `some (some d)` when it parses to the snapshot `d`. -/
def applyOp (c : Option (Option CheckpointData)) : FsOp → Option (Option CheckpointData)
| .openTrunc p => if p = CHECKPOINT_FILE then some none else c
| .writeAll p d => if p = CHECKPOINT_FILE then some (some d) else c

/-- State of the checkpoint file if the process crashes after the first
`k` file-system operations of a `save_checkpoint` call, starting from
prior content `c`. -/
def crashState (c : Option (Option CheckpointData)) (d : CheckpointData) (k : Nat) :
    Option (Option CheckpointData) :=
((save_checkpoint_ops d).take k).foldl applyOp c

/-- What `load_checkpoint` reads from a given file content: a missing or
unparseable file yields the default of three empty lists. -/
def readCheckpoint (c : Option (Option CheckpointData)) : CheckpointData :=
load_checkpoint (c.bind id)

/-- `RateLimiter` state: configured rate, current tokens, `last_update`. -/
structure RLState where
rate : ℚ
tokens : ℚ
last : ℚ
deriving DecidableEq, Repr

/-- `RateLimiter.__init__`: `tokens = rate`, `last_update = now`. -/
def RLState.init (rate now : ℚ) : RLState := ⟨rate, rate, now⟩

/-- `RateLimiter.acquire`, entered at instant `now` (the instant the caller
obtains the lock).  Returns the state as left behind and the instant at
which the caller is admitted.  Mirrors the source: refill
`tokens = min(rate, tokens + elapsed * rate)`, set `last_update = now`;
if `tokens < 1` sleep `(1 - tokens) / rate` (while holding the lock) and
set `tokens = 0`, otherwise consume one token immediately. -/
def acquire (s : RLState) (now : ℚ) : RLState × ℚ :=
let tokens := min s.rate (s.tokens + (now - s.last) * s.rate)
if tokens < 1 then
  (⟨s.rate, 0, now⟩, now + (1 - tokens) / s.rate)
else
  (⟨s.rate, tokens - 1, now⟩, now)

/-- Sustained contention from the instant 0: a fresh limiter, and a queue of
callers each of which invokes `acquire` the moment the previous caller
releases the lock (which happens at that caller's admission instant, since
the sleep is performed under the lock).  `contention rate n` is the state
and admission instant of the n-th caller. -/
def contention (rate : ℚ) : Nat → RLState × ℚ
| 0 => acquire (RLState.init rate 0) 0
| n + 1 => acquire (contention rate n).1 (contention rate n).2

/-- Admission instant of the n-th caller under sustained contention. -/
def admissionTime (rate : ℚ) (n : Nat) : ℚ := (contention rate n).2

/-- `ProxyPool` state after construction: the (already shuffled) proxy
list, the chunk size, the current chunk index and the round-robin counter. -/
structure ProxyPool where
all_proxies : List String
chunk_size : Nat
current_chunk_index : Nat
counter : Nat
deriving DecidableEq, Repr

/-- `has_proxies`: `len(self.all_proxies) > 0`. -/
def has_proxies (p : ProxyPool) : Bool := decide (0 < p.all_proxies.length)

/-- `num_chunks` as computed in `__init__`: ceiling division when the pool
is non-empty, `0` otherwise. -/
def num_chunks (p : ProxyPool) : Nat :=
if p.all_proxies.isEmpty then 0
else (p.all_proxies.length + p.chunk_size - 1) / p.chunk_size

/-- `_get_current_chunk`: `all_proxies[start:start + chunk_size]` with
`start = current_chunk_index * chunk_size`. -/
def current_chunk (p : ProxyPool) : List String :=
(p.all_proxies.drop (p.current_chunk_index * p.chunk_size)).take p.chunk_size

/-- `advance_chunk`: no-op when the pool is empty, otherwise advance the
chunk index modulo `num_chunks` and reset the counter. -/
def advance_chunk (p : ProxyPool) : ProxyPool :=
if has_proxies p then
  { p with current_chunk_index := (p.current_chunk_index + 1) % num_chunks p, counter := 0 }
else p

/-- `get_proxy`: `None` when the pool is empty, otherwise
`chunk[counter % len(chunk)]` with the counter post-incremented. -/
def get_proxy (p : ProxyPool) : Option String × ProxyPool :=
if has_proxies p then
  (some ((current_chunk p).getD (p.counter % (current_chunk p).length) ""),
   { p with counter := p.counter + 1 })
else (none, p)

/-- The outputs and final state of `n` consecutive sequential `get_proxy`
calls. -/
def get_proxy_seq (p : ProxyPool) : Nat → List (Option String) × ProxyPool
| 0 => ([], p)
| n + 1 =>
  ((get_proxy_seq p n).1 ++ [(get_proxy (get_proxy_seq p n).2).1],
   (get_proxy (get_proxy_seq p n).2).2)

end DojDL

namespace CdnUp

/-- `config.MAX_RETRIES` default: 3. -/
def MAX_RETRIES : Nat := 3

/-- `config.RETRY_BACKOFF` default: 2.0. -/
def RETRY_BACKOFF : ℚ := 2

/-- Outcome of one PUT attempt in `upload_file`: an HTTP status code, a
timeout (`asyncio.TimeoutError`) or any other exception. -/
inductive UResp where
| status (code : Nat)
| timeout
| exc
deriving DecidableEq, Repr

/-- Tracking-database writes `upload_file` performs:
`mark_upload_success` or `mark_upload_failed` (with the attempts value). -/
inductive DbOp where
| markSuccess
| markFailed (attempts : Nat)
deriving DecidableEq, Repr

/-- An `UploadResult` together with instrumentation: `success` and
`attempts` are the dataclass fields, `retriesUsed` counts loop iterations
started, `sleeps` the backoff sleeps performed and `dbOps` the tracking-db
writes, both in order. -/
structure URun where
success : Bool
attempts : Nat
retriesUsed : Nat
sleeps : List ℚ
dbOps : List DbOp
deriving DecidableEq, Repr

/-- The body of `for retry in range(config.MAX_RETRIES)` in `upload_file`,
for a worker called with attempt counter `attempt`.  Branches mirror the
source: status in [200, 201] → mark success and return; status ≥ 500 →
sleep `RETRY_BACKOFF ** retry` and continue; any other status (a client
error) → mark failed and return immediately with no sleep; timeout or
other exception → retry with the same backoff unless this was the last
iteration, in which case mark failed and return. -/
def uploadLoop (trace : Nat → UResp) (attempt : Nat) :
    Nat → Nat → List ℚ → List DbOp → URun
| 0, retry, sleeps, ops => ⟨false, attempt + MAX_RETRIES, retry, sleeps, ops⟩
| fuel + 1, retry, sleeps, ops =>
  match trace retry with
  | .status code =>
    if code = 200 ∨ code = 201 then
      ⟨true, attempt + retry, retry + 1, sleeps, ops ++ [.markSuccess]⟩
    else if 500 ≤ code then
      uploadLoop trace attempt fuel (retry + 1) (sleeps ++ [RETRY_BACKOFF ^ retry]) ops
    else
      ⟨false, attempt + retry, retry + 1, sleeps, ops ++ [.markFailed (attempt + retry)]⟩
  | .timeout =>
    if retry < MAX_RETRIES - 1 then
      uploadLoop trace attempt fuel (retry + 1) (sleeps ++ [RETRY_BACKOFF ^ retry]) ops
    else ⟨false, attempt + retry, retry + 1, sleeps, ops ++ [.markFailed (attempt + retry)]⟩
  | .exc =>
    if retry < MAX_RETRIES - 1 then
      uploadLoop trace attempt fuel (retry + 1) (sleeps ++ [RETRY_BACKOFF ^ retry]) ops
    else ⟨false, attempt + retry, retry + 1, sleeps, ops ++ [.markFailed (attempt + retry)]⟩

/-- `upload_file` for one file, given its network trace and the attempt
counter it was invoked with. -/
def upload_file (trace : Nat → UResp) (attempt : Nat) : URun :=
uploadLoop trace attempt MAX_RETRIES 0 [] []

/-- A response that takes the client-error branch: not a success status and
below 500. -/
def isClientError (r : UResp) : Prop :=
match r with
| .status code => ¬(code = 200 ∨ code = 201) ∧ code < 500
| _ => False

/-- A response that enters the retry/backoff path (when not on the last
iteration, for timeouts and exceptions): a 5xx status, a timeout or an
exception. -/
def isRetryCase (r : UResp) : Prop :=
match r with
| .status code => 500 ≤ code
| .timeout => True
| .exc => True

instance : DecidablePred isClientError := fun r => by
  unfold isClientError
  cases r <;> infer_instance

instance : DecidablePred isRetryCase := fun r => by
  unfold isRetryCase
  cases r <;> infer_instance

end CdnUp

/-! ## Helper lemmas -/

namespace DojDL

/-- Concatenating the batch slices gives back the work list (aux form). -/
theorem chunkedAux_flatten (bs : Nat) (hbs : 0 < bs) :
    ∀ fuel l, l.length ≤ fuel → (chunkedAux bs fuel l).flatten = l := by
  intro fuel
  induction fuel with
  | zero =>
    intro l hl
    rw [Nat.le_zero, List.length_eq_zero] at hl
    subst hl
    rfl
  | succ n ih =>
    intro l hl
    match l with
    | [] => rfl
    | x :: xs =>
      rw [chunkedAux, List.flatten_cons, ih]
      · exact List.take_append_drop bs (x :: xs)
      · rw [List.length_drop]
        simp only [List.length_cons] at hl ⊢
        omega

/-- Concatenating the batch slices gives back the work list. -/
theorem chunked_flatten (bs : Nat) (hbs : 0 < bs) (l : List Nat) :
    (chunked bs l).flatten = l :=
  chunkedAux_flatten bs hbs l.length l le_rfl

/-- Membership in the computed work list. -/
theorem mem_to_download (s e n : Nat) (ck : Option CheckpointData)
    (disk : List (Nat × Nat)) :
    n ∈ to_download s e ck disk ↔ (s ≤ n ∧ n ≤ e) ∧ n ∉ already_done ck disk := by
  unfold to_download
  rw [List.mem_filter]
  simp only [List.mem_range'_1, decide_eq_true_eq]
  have h : (s ≤ n ∧ n < s + (e + 1 - s)) ↔ (s ≤ n ∧ n ≤ e) := by omega
  rw [h]

/-- The items dispatched over the whole run are exactly the work list. -/
theorem dispatched_eq_to_download (s e : Nat) (ck : Option CheckpointData)
    (disk : List (Nat × Nat)) :
    dispatched s e ck disk = to_download s e ck disk :=
  chunked_flatten BATCH_SIZE (by norm_num [BATCH_SIZE]) _

/-- Unrolling one backoff-branch iteration of the retry loop. -/
theorem retryLoop_backoff_step (trace : Nat → Resp) (fuel used : Nat) (b : ℚ)
    (acc : List Sleep) (h : isBackoffCase (trace used)) :
    retryLoop trace (fuel + 1) used b acc =
      retryLoop trace fuel (used + 1) (nextBackoff b)
        (acc ++ [⟨b, backoffJitter (trace used)⟩]) := by
  rcases hr : trace used with ⟨code, size⟩ | _ | _ | _ <;>
    rw [hr] at h <;> unfold isBackoffCase at h <;> simp only [retryLoop, hr, backoffJitter]
  obtain ⟨h200, h404, h429, h302⟩ := h
  rw [if_neg h200, if_neg h404, if_neg h429]
  by_cases h503 : code = 503
  · rw [if_pos h503, if_pos h503]
  · rw [if_neg h503, if_neg h302, if_neg h503]

/-- Running the retry loop on backoff-branch responses only: every
iteration consumes one unit of the attempt budget, sleeps the current
backoff value, and doubles it (capped); when the budget runs out the
retries-exhausted failure is returned. -/
theorem retryLoop_backoff (trace : Nat → Resp) :
    ∀ (fuel used : Nat) (b : ℚ) (acc : List Sleep),
    (∀ k, k < fuel → isBackoffCase (trace (used + k))) →
    retryLoop trace fuel used b acc =
      ⟨"failed", "Max retries (5) exhausted", used + fuel,
       acc ++ (List.range fuel).map
         (fun k => ⟨backAt b k, backoffJitter (trace (used + k))⟩)⟩ := by
  intro fuel
  induction fuel with
  | zero => intro used b acc _; simp [retryLoop]
  | succ n ih =>
    intro used b acc h
    rw [retryLoop_backoff_step trace n used b acc (by simpa using h 0 (by omega))]
    rw [ih (used + 1) (nextBackoff b) _ (fun k hk => by
      have := h (k + 1) (by omega)
      simpa [Nat.add_assoc, Nat.add_comm 1 k] using this)]
    have hfun : ∀ k : Nat,
        (⟨backAt (nextBackoff b) k, backoffJitter (trace (used + 1 + k))⟩ : Sleep) =
          ⟨backAt b (k + 1), backoffJitter (trace (used + (k + 1)))⟩ := by
      intro k
      have h1 : used + 1 + k = used + (k + 1) := by omega
      rw [h1]
      simp [backAt]
    simp only [RunResult.mk.injEq, true_and]
    refine ⟨by omega, ?_⟩
    rw [List.range_succ_eq_map, List.map_cons, List.map_map]
    simp only [Function.comp_def, hfun]
    rw [List.append_assoc, List.singleton_append]
    simp [backAt]

/-- Unrolling one 429 iteration of the retry loop: the attempt counter is
consumed, the fixed pause (plus jitter at most 5) is slept, and the
backoff value is left unchanged. -/
theorem retryLoop_429_step (trace : Nat → Resp) (fuel used : Nat) (b : ℚ)
    (acc : List Sleep) (h : is429 (trace used)) :
    retryLoop trace (fuel + 1) used b acc =
      retryLoop trace fuel (used + 1) b (acc ++ [⟨RATE_LIMIT_PAUSE, 5⟩]) := by
  rcases hr : trace used with ⟨code, size⟩ | _ | _ | _ <;>
    rw [hr] at h <;> simp only [is429] at h
  subst h
  simp [retryLoop, hr]

/-- Running the retry loop on 429 responses only: each 429 consumes one
unit of the attempt budget and sleeps the fixed pause, and after the
budget is gone the retries-exhausted failure is returned. -/
theorem retryLoop_429 (trace : Nat → Resp) :
    ∀ (fuel used : Nat) (b : ℚ) (acc : List Sleep),
    (∀ k, k < fuel → is429 (trace (used + k))) →
    retryLoop trace fuel used b acc =
      ⟨"failed", "Max retries (5) exhausted", used + fuel,
       acc ++ List.replicate fuel ⟨RATE_LIMIT_PAUSE, 5⟩⟩ := by
  intro fuel
  induction fuel with
  | zero => intro used b acc _; simp [retryLoop]
  | succ n ih =>
    intro used b acc h
    rw [retryLoop_429_step trace n used b acc (by simpa using h 0 (by omega))]
    rw [ih (used + 1) b _ (fun k hk => by
      have := h (k + 1) (by omega)
      simpa [Nat.add_assoc, Nat.add_comm 1 k] using this)]
    simp only [RunResult.mk.injEq, true_and]
    refine ⟨by omega, ?_⟩
    rw [List.append_assoc, List.singleton_append, ← List.replicate_succ]

end DojDL

/-! ## Claim C1 -/

namespace DojDL

/-- C1: the set of work items dispatched to workers over the whole run is
exactly the inclusive range [start, end] minus the union of the loaded
checkpoint's completed set and the set of file numbers present on disk
with size strictly greater than zero, and no item of that union is ever
dispatched (hence never fetched) during the run. -/
theorem c1_dispatched_work_set (s e : Nat) (ck : Option CheckpointData)
    (disk : List (Nat × Nat)) :
    (dispatched s e ck disk).toFinset =
      Finset.Icc s e \
        ((load_checkpoint ck).completed.toFinset ∪ get_downloaded_files disk) ∧
    ∀ n ∈ (load_checkpoint ck).completed.toFinset ∪ get_downloaded_files disk,
      n ∉ dispatched s e ck disk := by
  constructor
  · ext n
    rw [List.mem_toFinset, dispatched_eq_to_download, mem_to_download,
      Finset.mem_sdiff, Finset.mem_Icc]
    unfold already_done
    tauto
  · intro n hn hmem
    rw [dispatched_eq_to_download, mem_to_download] at hmem
    exact hmem.2 hn

/-- Witness for C1 at a concrete run: range [1,3], checkpoint containing 2,
a non-empty file for 3 on disk. -/
theorem c1_dispatched_work_set_witness :
    2 ∈ (load_checkpoint (some ⟨[2], [], []⟩)).completed.toFinset ∪
        get_downloaded_files [(3, 5)] ∧
    2 ∉ dispatched 1 3 (some ⟨[2], [], []⟩) [(3, 5)] :=
  ⟨by decide, (c1_dispatched_work_set 1 3 (some ⟨[2], [], []⟩) [(3, 5)]).2 2 (by decide)⟩

end DojDL

/-! ## Claim C2 -/

namespace DojDL

/-- C2 counterexample: the claim asserts that the 429 path does not consume
a unit of the bounded retry budget, so that an item repeatedly receiving
429 loops without the 429 responses counting toward the configured maximum
attempts.  In the code, the 429 branch's `continue` advances the
`for attempt in range(MAX_RETRIES)` loop: a worker that receives 429 on
every attempt exits with the retries-exhausted failure after exactly
`MAX_RETRIES` attempts, so each 429 did count toward the maximum. -/
theorem c2_counterexample :
    download_file_with_retry (fun _ => Resp.status 429 0) =
      ⟨"failed", "Max retries (5) exhausted", MAX_RETRIES,
       List.replicate MAX_RETRIES ⟨RATE_LIMIT_PAUSE, 5⟩⟩ ∧
    (download_file_with_retry (fun _ => Resp.status 429 0)).attemptsUsed = MAX_RETRIES := by
  constructor <;> rfl

/-- C2 amended: on every 429 the worker sleeps the fixed long pause
(`RATE_LIMIT_PAUSE` seconds plus uniform jitter bounded by 5, not
exponential backoff) and retries, but this path does consume a unit of the
bounded retry budget: an item receiving 429 on all its attempts returns
the retries-exhausted failure after exactly `MAX_RETRIES` attempts. -/
theorem c2_429_consumes_budget (trace : Nat → Resp)
    (h : ∀ k, k < MAX_RETRIES → is429 (trace k)) :
    download_file_with_retry trace =
      ⟨"failed", "Max retries (5) exhausted", MAX_RETRIES,
       List.replicate MAX_RETRIES ⟨RATE_LIMIT_PAUSE, 5⟩⟩ := by
  unfold download_file_with_retry
  rw [retryLoop_429 trace MAX_RETRIES 0 INITIAL_BACKOFF [] (fun k hk => by
    simpa using h k hk)]
  rfl

theorem c2_429_consumes_budget_witness :
    (∀ k, k < MAX_RETRIES → is429 ((fun _ => Resp.status 429 7) k)) ∧
    download_file_with_retry (fun _ => Resp.status 429 7) =
      ⟨"failed", "Max retries (5) exhausted", MAX_RETRIES,
       List.replicate MAX_RETRIES ⟨RATE_LIMIT_PAUSE, 5⟩⟩ :=
  ⟨by decide, c2_429_consumes_budget _ (by decide)⟩

end DojDL

/-! ## Claim C3 -/

namespace DojDL

/-- C3 counterexample: the claim asserts that an item whose download ends
with the HTTP 302 (session expired) outcome is recorded by the
orchestrator neither in `completed` nor in `failed` as a normal failure.
In the code, the worker returns the status string "failed" for a 302, and
`main`'s result loop appends every non-"success", non-"not_found" item to
the `failed` list — so item 7 ends up in `failed` exactly like any other
failure. -/
theorem c3_counterexample :
    (processResults ⟨∅, [], []⟩
        [(7, (download_file_with_retry (fun _ => Resp.status 302 0)).status,
             (download_file_with_retry (fun _ => Resp.status 302 0)).msg)]).failed
      = [7] := by
  rfl

/-- C3 amended: a download attempt receiving HTTP 302 terminates
immediately for that item — one attempt, no sleep, no retry — with the
distinct message "Cookie expired - 302 redirect" (the worker also logs a
distinct cookies-expired error); the orchestrator does not add the item to
the checkpoint's completed set, but it does append it to the `failed`
list like an ordinary failure. -/
theorem c3_302_terminal_but_failed (trace : Nat → Resp) (sz num : Nat)
    (st : OState) (h : trace 0 = Resp.status 302 sz) :
    download_file_with_retry trace = ⟨"failed", "Cookie expired - 302 redirect", 1, []⟩ ∧
    (processOne st (num, (download_file_with_retry trace).status,
        (download_file_with_retry trace).msg)).completed = st.completed ∧
    (processOne st (num, (download_file_with_retry trace).status,
        (download_file_with_retry trace).msg)).failed = st.failed ++ [num] ∧
    (processOne st (num, (download_file_with_retry trace).status,
        (download_file_with_retry trace).msg)).not_found = st.not_found := by
  have hrun : download_file_with_retry trace =
      ⟨"failed", "Cookie expired - 302 redirect", 1, []⟩ := by
    show retryLoop trace (4 + 1) 0 INITIAL_BACKOFF [] = _
    rw [retryLoop]
    rw [h]
    norm_num
  refine ⟨hrun, ?_, ?_, ?_⟩ <;> rw [hrun] <;> simp [processOne]

theorem c3_302_terminal_but_failed_witness :
    (fun _ => Resp.status 302 9) 0 = Resp.status 302 9 ∧
    ((processOne ⟨∅, [], []⟩ (7, (download_file_with_retry (fun _ => Resp.status 302 9)).status,
        (download_file_with_retry (fun _ => Resp.status 302 9)).msg)).failed = [7] ∧
     (processOne ⟨∅, [], []⟩ (7, (download_file_with_retry (fun _ => Resp.status 302 9)).status,
        (download_file_with_retry (fun _ => Resp.status 302 9)).msg)).completed = ∅) :=
  ⟨rfl,
   (c3_302_terminal_but_failed (fun _ => Resp.status 302 9) 9 7 ⟨∅, [], []⟩ rfl).2.2.1,
   (c3_302_terminal_but_failed (fun _ => Resp.status 302 9) 9 7 ⟨∅, [], []⟩ rfl).2.1⟩

end DojDL

/-! ## Claim C4 -/

namespace DojDL

/-- C4 counterexample: the claim asserts write-new-then-replace, so that a
crash during any save leaves the previously saved checkpoint readable and
uncorrupted.  In the code, `save_checkpoint` opens `checkpoint.json` with
mode `'w'`, truncating the previous snapshot in place before `json.dump`
writes the new one.  Crashing after one file-system operation of
`save_checkpoint ⟨[1,2],[],[]⟩` over a previously saved `⟨[1],[],[]⟩`
leaves a truncated, unparseable file: the subsequent load returns the
empty default, which is neither the previous nor the new snapshot. -/
theorem c4_counterexample :
    readCheckpoint (crashState (some (some ⟨[1], [], []⟩)) ⟨[1, 2], [], []⟩ 1) =
      ⟨[], [], []⟩ ∧
    (⟨[], [], []⟩ : CheckpointData) ≠ ⟨[1], [], []⟩ ∧
    (⟨[], [], []⟩ : CheckpointData) ≠ ⟨[1, 2], [], []⟩ := by
  refine ⟨rfl, by decide, by decide⟩

/-- C4 amended: `save_checkpoint` persists the checkpoint by truncating
`checkpoint.json` in place and then writing the new snapshot into the same
file (no temporary file, no atomic replace).  A crash before the save
leaves the previous snapshot, a crash between the truncating open and the
write leaves an unparseable file that `load_checkpoint` reads as the empty
default (the previously saved checkpoint is lost), and only a completed
save yields the new snapshot. -/
theorem c4_save_in_place (prior : CheckpointData) (d : CheckpointData) :
    save_checkpoint_ops d =
      [FsOp.openTrunc CHECKPOINT_FILE, FsOp.writeAll CHECKPOINT_FILE d] ∧
    readCheckpoint (crashState (some (some prior)) d 0) = prior ∧
    readCheckpoint (crashState (some (some prior)) d 1) = ⟨[], [], []⟩ ∧
    readCheckpoint (crashState (some (some prior)) d 2) = d := by
  refine ⟨rfl, rfl, ?_, ?_⟩ <;>
    simp [crashState, save_checkpoint_ops, applyOp, readCheckpoint, load_checkpoint]

end DojDL

/-! ## Claim C5 -/

namespace DojDL

/-- C5: the refill and wait formulas of `RateLimiter.acquire` match the
claim, but the rolling-window throughput bound does not hold on the code:
with rate 2 and sustained contention from the start, the admission
instants of the first six callers are 0, 0, 1/2, 1/2, 1, 1 — the window
[1/4, 5/4) of length one second contains 4 > rate admissions (and this is
sustained, 2·rate per second, not just an initial burst).  The cause: a
caller that must wait sets `last_update = now` before its in-lock sleep
and then sets `tokens = 0`, so the interval it slept is counted again as
refill time by the next caller. -/
theorem c5_window_violation :
    ((List.range 6).map (admissionTime 2) = [0, 0, 1/2, 1/2, 1, 1]) ∧
    (((List.range 6).map (admissionTime 2)).filter
        (fun t => decide ((1 : ℚ)/4 ≤ t ∧ t < 5/4))).length = 4 ∧
    (4 : ℕ) > 2 := by
  refine ⟨by norm_num [List.range_succ, admissionTime, contention, acquire, RLState.init], ?_, by norm_num⟩
  norm_num [List.range_succ, admissionTime, contention, acquire, RLState.init]

end DojDL

/-! ## Claim C6 -/

namespace DojDL

/-- Within the five configured attempts the doubling backoff, capped at
`MAX_BACKOFF`, equals `INITIAL_BACKOFF * 2 ^ attempt`. -/
theorem backAt_initial (k : Nat) (hk : k < MAX_RETRIES) :
    backAt INITIAL_BACKOFF k = min (INITIAL_BACKOFF * 2 ^ k) MAX_BACKOFF := by
  unfold MAX_RETRIES at hk
  interval_cases k <;>
    norm_num [backAt, nextBackoff, INITIAL_BACKOFF, MAX_BACKOFF]

/-- C6: for a work item all of whose attempts end in 503, an unexpected
status, a timeout or a connection-level error (or any other exception),
the worker performs exactly `MAX_RETRIES` attempts and returns the
retries-exhausted failure; the pre-retry base sleep durations are
`INITIAL_BACKOFF * 2 ^ attempt` capped at `MAX_BACKOFF` — the same for
the timeout/connection-error path as for the 503 path (only the jitter
bound differs) — and are non-decreasing across attempts. -/
theorem c6_backoff_exhaustion (trace : Nat → Resp)
    (h : ∀ k, k < MAX_RETRIES → isBackoffCase (trace k)) :
    download_file_with_retry trace =
      ⟨"failed", "Max retries (5) exhausted", MAX_RETRIES,
       (List.range MAX_RETRIES).map
         (fun k => ⟨min (INITIAL_BACKOFF * 2 ^ k) MAX_BACKOFF, backoffJitter (trace k)⟩)⟩ ∧
    (download_file_with_retry trace).sleeps.map Sleep.base =
      (List.range MAX_RETRIES).map (fun k => min (INITIAL_BACKOFF * 2 ^ k) MAX_BACKOFF) ∧
    List.Chain' (· ≤ ·) ((download_file_with_retry trace).sleeps.map Sleep.base) := by
  have hrun : download_file_with_retry trace =
      ⟨"failed", "Max retries (5) exhausted", MAX_RETRIES,
       (List.range MAX_RETRIES).map
         (fun k => ⟨min (INITIAL_BACKOFF * 2 ^ k) MAX_BACKOFF, backoffJitter (trace k)⟩)⟩ := by
    unfold download_file_with_retry
    rw [retryLoop_backoff trace MAX_RETRIES 0 INITIAL_BACKOFF [] (fun k hk => by
      simpa using h k hk)]
    simp only [RunResult.mk.injEq, true_and, Nat.zero_add, List.nil_append]
    apply List.map_congr_left
    intro k hk
    rw [List.mem_range] at hk
    rw [backAt_initial k hk]
  refine ⟨hrun, ?_, ?_⟩ <;> rw [hrun]
  · simp
  · have hbases : (((List.range MAX_RETRIES).map
        (fun k => (⟨min (INITIAL_BACKOFF * 2 ^ k) MAX_BACKOFF, backoffJitter (trace k)⟩ : Sleep))).map
          Sleep.base) =
        (List.range MAX_RETRIES).map (fun k => min (INITIAL_BACKOFF * 2 ^ k) MAX_BACKOFF) := by
      simp
    rw [hbases]
    norm_num [MAX_RETRIES, List.range_succ, INITIAL_BACKOFF, MAX_BACKOFF,
      List.chain'_cons]

theorem c6_backoff_exhaustion_witness :
    (∀ k, k < MAX_RETRIES → isBackoffCase ((fun _ => Resp.timeout) k)) ∧
    download_file_with_retry (fun _ => Resp.timeout) =
      ⟨"failed", "Max retries (5) exhausted", MAX_RETRIES,
       (List.range MAX_RETRIES).map
         (fun k => ⟨min (INITIAL_BACKOFF * 2 ^ k) MAX_BACKOFF,
                    backoffJitter ((fun _ => Resp.timeout) k)⟩)⟩ :=
  ⟨by decide, (c6_backoff_exhaustion (fun _ => Resp.timeout) (by decide)).1⟩

end DojDL

/-! ## Orchestrator result-processing lemmas (shared by C7 and C9) -/

namespace DojDL

/-- Processing one result can only grow the completed set. -/
theorem processOne_completed_mono (st : OState) (r : Nat × String × String) :
    st.completed ⊆ (processOne st r).completed := by
  unfold processOne
  split
  · exact Finset.subset_insert _ _
  · split
    · exact Finset.subset_insert _ _
    · exact Finset.Subset.refl _

/-- Processing a result list can only grow the completed set. -/
theorem processResults_completed_mono (rs : List (Nat × String × String)) :
    ∀ st : OState, st.completed ⊆ (processResults st rs).completed := by
  induction rs with
  | nil => intro st; exact Finset.Subset.refl _
  | cons r rs ih =>
    intro st
    exact (processOne_completed_mono st r).trans (ih (processOne st r))

/-- Any element of the failed list after processing was already failed or
is the identifier of one of the processed results. -/
theorem processResults_failed_sub (rs : List (Nat × String × String)) :
    ∀ (st : OState) (n : Nat), n ∈ (processResults st rs).failed →
      n ∈ st.failed ∨ ∃ r ∈ rs, r.1 = n := by
  induction rs with
  | nil => intro st n hn; exact Or.inl hn
  | cons r rs ih =>
    intro st n hn
    rcases ih (processOne st r) n hn with h1 | h1
    · unfold processOne at h1
      split at h1
      · exact Or.inl h1
      · split at h1
        · exact Or.inl h1
        · rw [List.mem_append] at h1
          rcases h1 with h2 | h2
          · exact Or.inl h2
          · exact Or.inr ⟨r, List.mem_cons_self r rs, by simpa using (List.mem_singleton.1 h2).symm⟩
    · rcases h1 with ⟨r2, hr2, hr2n⟩
      exact Or.inr ⟨r2, List.mem_cons_of_mem r hr2, hr2n⟩

/-- Any element of the not_found list after processing was already there or
is the identifier of one of the processed results. -/
theorem processResults_not_found_sub (rs : List (Nat × String × String)) :
    ∀ (st : OState) (n : Nat), n ∈ (processResults st rs).not_found →
      n ∈ st.not_found ∨ ∃ r ∈ rs, r.1 = n := by
  induction rs with
  | nil => intro st n hn; exact Or.inl hn
  | cons r rs ih =>
    intro st n hn
    rcases ih (processOne st r) n hn with h1 | h1
    · unfold processOne at h1
      split at h1
      · exact Or.inl h1
      · split at h1
        · rw [List.mem_append] at h1
          rcases h1 with h2 | h2
          · exact Or.inl h2
          · exact Or.inr ⟨r, List.mem_cons_self r rs, by simpa using (List.mem_singleton.1 h2).symm⟩
        · exact Or.inl h1
    · rcases h1 with ⟨r2, hr2, hr2n⟩
      exact Or.inr ⟨r2, List.mem_cons_of_mem r hr2, hr2n⟩

/-- The invariant "every not_found item is in completed" is preserved by
processing one result. -/
theorem processOne_nf_in_completed (st : OState) (r : Nat × String × String)
    (h : ∀ x ∈ st.not_found, x ∈ st.completed) :
    ∀ x ∈ (processOne st r).not_found, x ∈ (processOne st r).completed := by
  intro x hx
  unfold processOne at hx ⊢
  by_cases h1 : r.2.1 = "success"
  · rw [if_pos h1] at hx ⊢
    exact Finset.mem_insert_of_mem (h x hx)
  · rw [if_neg h1] at hx ⊢
    by_cases h2 : r.2.1 = "not_found"
    · rw [if_pos h2] at hx ⊢
      rw [List.mem_append] at hx
      rcases hx with h3 | h3
      · exact Finset.mem_insert_of_mem (h x h3)
      · simp only [List.mem_singleton] at h3
        subst h3
        exact Finset.mem_insert_self _ _
    · rw [if_neg h2] at hx ⊢
      exact h x hx

/-- The invariant "every not_found item is in completed" is preserved by
processing a result list. -/
theorem processResults_nf_in_completed (rs : List (Nat × String × String)) :
    ∀ st : OState, (∀ x ∈ st.not_found, x ∈ st.completed) →
      ∀ x ∈ (processResults st rs).not_found, x ∈ (processResults st rs).completed := by
  induction rs with
  | nil => intro st h; exact h
  | cons r rs ih =>
    intro st h
    exact ih (processOne st r) (processOne_nf_in_completed st r h)

end DojDL

/-! ## Claim C7 -/

namespace DojDL

/-- C7: an attempt receiving HTTP 404 makes the worker return the
not-found outcome after exactly one attempt, with no sleep and no retry;
the orchestrator appends such an item to `not_found` and also inserts it
into `completed` (and processing any results preserves
completed ⊇ not_found, so the inclusion holds at every checkpoint save of
a run started with empty `not_found`); and an item recorded in a saved
checkpoint's completed list is excluded from the work set of any
subsequent invocation, hence never retried. -/
theorem c7_not_found_terminal :
    (∀ (trace : Nat → Resp) (sz : Nat), trace 0 = Resp.status 404 sz →
       download_file_with_retry trace = ⟨"not_found", "404", 1, []⟩) ∧
    (∀ (st : OState) (num : Nat),
       processOne st (num, "not_found", "404") =
         ⟨insert num st.completed, st.failed, st.not_found ++ [num]⟩) ∧
    (∀ (st : OState) (rs : List (Nat × String × String)),
       (∀ x ∈ st.not_found, x ∈ st.completed) →
       ∀ x ∈ (processResults st rs).not_found, x ∈ (processResults st rs).completed) ∧
    (∀ (s e n : Nat) (ck : CheckpointData) (disk : List (Nat × Nat)),
       n ∈ ck.completed → n ∉ to_download s e (some ck) disk) := by
  refine ⟨?_, ?_, fun st rs => processResults_nf_in_completed rs st, ?_⟩
  · intro trace sz h
    show retryLoop trace (4 + 1) 0 INITIAL_BACKOFF [] = _
    rw [retryLoop, h]
    norm_num
  · intro st num
    simp [processOne]
  · intro s e n ck disk hck hmem
    rw [mem_to_download] at hmem
    exact hmem.2 (Finset.mem_union_left _ (List.mem_toFinset.2 hck))

/-- Witness for C7, following end-to-end scenario B: item 3 gets a 404,
is recorded in both `not_found` and `completed`, and with 3 in the saved
checkpoint's completed list it is excluded from the next run's work set. -/
theorem c7_not_found_terminal_witness :
    ((fun _ => Resp.status 404 0) 0 = Resp.status 404 0 ∧
     download_file_with_retry (fun _ => Resp.status 404 0) = ⟨"not_found", "404", 1, []⟩) ∧
    ((3 : Nat) ∈ ([3] : List Nat) ∧
     3 ∉ to_download 1 5 (some ⟨[3], [], []⟩) []) :=
  ⟨⟨rfl, c7_not_found_terminal.1 (fun _ => Resp.status 404 0) 0 rfl⟩,
   ⟨by decide, c7_not_found_terminal.2.2.2 1 5 3 ⟨[3], [], []⟩ [] (by decide)⟩⟩

end DojDL

/-! ## Claim C8 -/

namespace DojDL

/-- On a non-empty pool, `n` consecutive `get_proxy` calls only advance the
counter, and return `chunk[(counter + k) % len(chunk)]` for k = 0..n-1. -/
theorem get_proxy_seq_spec (p : ProxyPool) (h : has_proxies p = true) :
    ∀ n : Nat,
      (get_proxy_seq p n).2 = { p with counter := p.counter + n } ∧
      (get_proxy_seq p n).1 = (List.range n).map
        (fun k => some ((current_chunk p).getD
          ((p.counter + k) % (current_chunk p).length) "")) := by
  intro n
  induction n with
  | zero => exact ⟨rfl, rfl⟩
  | succ n ih =>
    obtain ⟨ih2, ih1⟩ := ih
    have hh : has_proxies { p with counter := p.counter + n } = true := h
    constructor
    · show (get_proxy (get_proxy_seq p n).2).2 = _
      rw [ih2]
      unfold get_proxy
      rw [if_pos hh]
      rfl
    · show (get_proxy_seq p n).1 ++ [(get_proxy (get_proxy_seq p n).2).1] = _
      rw [ih1, ih2]
      unfold get_proxy
      rw [if_pos hh]
      rw [List.range_succ, List.map_append]
      rfl

/-- On a non-empty chunk of length C, the outputs of C consecutive
`get_proxy` calls are exactly a rotation of the chunk. -/
theorem get_proxy_seq_rotate (p : ProxyPool) (h : has_proxies p = true)
    (hne : current_chunk p ≠ []) :
    (get_proxy_seq p (current_chunk p).length).1 =
      ((current_chunk p).rotate (p.counter % (current_chunk p).length)).map some := by
  rw [(get_proxy_seq_spec p h (current_chunk p).length).2]
  have hClen : 0 < (current_chunk p).length := List.length_pos.2 hne
  apply List.ext_getElem
  · simp
  · intro i h1 h2
    simp only [List.getElem_map, List.getElem_range, List.getElem_rotate,
      Option.some.injEq]
    have hi : i < (current_chunk p).length := by simpa using h1
    rw [List.getD_eq_getElem _ _ (Nat.mod_lt _ hClen)]
    congr 1
    conv_lhs => rw [Nat.add_mod]
    rw [Nat.mod_eq_of_lt hi, Nat.add_comm]

/-- C8: on a non-empty pool, `get_proxy` returns
`chunk[counter mod len(chunk)]` and post-increments the counter; C
consecutive calls on a chunk of length C return a rotation of the chunk —
a permutation, so every identity of the chunk is returned exactly once (in
particular exactly once each when the pool entries are distinct) before
any repeats; `advance_chunk` moves the chunk index to
`(index + 1) mod numChunks` and resets the counter; and on an empty pool
`advance_chunk` is the identity while `get_proxy` returns `none` and
leaves the pool unchanged, without blocking or raising. -/
theorem c8_proxy_rotation :
    (∀ p : ProxyPool, has_proxies p = true →
       (get_proxy p).1 = some ((current_chunk p).getD
           (p.counter % (current_chunk p).length) "") ∧
       (get_proxy p).2 = { p with counter := p.counter + 1 }) ∧
    (∀ p : ProxyPool, has_proxies p = true → current_chunk p ≠ [] →
       (get_proxy_seq p (current_chunk p).length).1 =
         ((current_chunk p).rotate (p.counter % (current_chunk p).length)).map some ∧
       (get_proxy_seq p (current_chunk p).length).1.Perm
         ((current_chunk p).map some)) ∧
    (∀ p : ProxyPool, has_proxies p = true →
       (advance_chunk p).current_chunk_index =
         (p.current_chunk_index + 1) % num_chunks p ∧
       (advance_chunk p).counter = 0) ∧
    (∀ p : ProxyPool, p.all_proxies = [] →
       advance_chunk p = p ∧ get_proxy p = (none, p)) := by
  refine ⟨?_, ?_, ?_, ?_⟩
  · intro p h
    unfold get_proxy
    rw [if_pos h]
    exact ⟨rfl, rfl⟩
  · intro p h hne
    refine ⟨get_proxy_seq_rotate p h hne, ?_⟩
    rw [get_proxy_seq_rotate p h hne]
    exact List.Perm.map some (List.rotate_perm _ _)
  · intro p h
    unfold advance_chunk
    rw [if_pos h]
    exact ⟨rfl, rfl⟩
  · intro p h
    have hh : has_proxies p = false := by
      unfold has_proxies
      rw [h]
      rfl
    constructor
    · unfold advance_chunk
      rw [hh]
      rfl
    · unfold get_proxy
      rw [hh]
      rfl

/-- Witness for C8 on the pool ["a","b","c"] with one chunk of size 3 and
counter 1: three consecutive calls return b, c, a — a rotation of the
chunk — and the empty pool behaves inertly. -/
theorem c8_proxy_rotation_witness :
    (has_proxies ⟨["a", "b", "c"], 3, 0, 1⟩ = true ∧
     current_chunk ⟨["a", "b", "c"], 3, 0, 1⟩ ≠ [] ∧
     (get_proxy_seq ⟨["a", "b", "c"], 3, 0, 1⟩
         (current_chunk ⟨["a", "b", "c"], 3, 0, 1⟩).length).1.Perm
       ((current_chunk ⟨["a", "b", "c"], 3, 0, 1⟩).map some)) ∧
    (advance_chunk ⟨[], 3, 0, 1⟩ = ⟨[], 3, 0, 1⟩ ∧
     get_proxy ⟨[], 3, 0, 1⟩ = (none, ⟨[], 3, 0, 1⟩)) :=
  ⟨⟨rfl, by decide,
    (c8_proxy_rotation.2.1 ⟨["a", "b", "c"], 3, 0, 1⟩ rfl (by decide)).2⟩,
   c8_proxy_rotation.2.2.2 ⟨[], 3, 0, 1⟩ rfl⟩

end DojDL

/-! ## Claim C9 -/

namespace DojDL

/-- Every state at which `save_checkpoint` is called during a run has a
completed set extending the initial one, and failed / not_found entries
drawn from the initial lists or from the identifiers of results processed
during the run. -/
theorem savedStates_spec :
    ∀ (bs : List (List (Nat × String × String))) (st0 st : OState),
    st ∈ savedStates st0 bs →
    st0.completed ⊆ st.completed ∧
    (∀ n ∈ st.failed, n ∈ st0.failed ∨ ∃ b ∈ bs, ∃ r ∈ b, r.1 = n) ∧
    (∀ n ∈ st.not_found, n ∈ st0.not_found ∨ ∃ b ∈ bs, ∃ r ∈ b, r.1 = n) := by
  intro bs
  induction bs with
  | nil =>
    intro st0 st hst
    simp [savedStates] at hst
  | cons b bs ih =>
    intro st0 st hst
    rw [savedStates, List.mem_cons] at hst
    rcases hst with h1 | h1
    · subst h1
      refine ⟨processResults_completed_mono b st0, ?_, ?_⟩
      · intro n hn
        rcases processResults_failed_sub b st0 n hn with h2 | h2
        · exact Or.inl h2
        · exact Or.inr ⟨b, List.mem_cons_self b bs, h2⟩
      · intro n hn
        rcases processResults_not_found_sub b st0 n hn with h2 | h2
        · exact Or.inl h2
        · exact Or.inr ⟨b, List.mem_cons_self b bs, h2⟩
    · have h2 := ih (processResults st0 b) st h1
      refine ⟨(processResults_completed_mono b st0).trans h2.1, ?_, ?_⟩
      · intro n hn
        rcases h2.2.1 n hn with h3 | h3
        · rcases processResults_failed_sub b st0 n h3 with h4 | h4
          · exact Or.inl h4
          · exact Or.inr ⟨b, List.mem_cons_self b bs, h4⟩
        · rcases h3 with ⟨b2, hb2, hr⟩
          exact Or.inr ⟨b2, List.mem_cons_of_mem b hb2, hr⟩
      · intro n hn
        rcases h2.2.2 n hn with h3 | h3
        · rcases processResults_not_found_sub b st0 n h3 with h4 | h4
          · exact Or.inl h4
          · exact Or.inr ⟨b, List.mem_cons_self b bs, h4⟩
        · rcases h3 with ⟨b2, hb2, hr⟩
          exact Or.inr ⟨b2, List.mem_cons_of_mem b hb2, hr⟩

/-- C9: a missing or unparseable checkpoint loads as three empty lists;
`main` initialises its accumulators from the loaded checkpoint's completed
field only (failed and not_found start empty, and the loaded failed /
not_found lists have no influence at all); consequently every checkpoint
saved during a run has a completed set extending the loaded one, while its
failed and not_found lists contain only identifiers of results observed in
the current run. -/
theorem c9_only_completed_cumulative :
    (load_checkpoint none = ⟨[], [], []⟩) ∧
    (∀ (ck : Option CheckpointData) (disk : List (Nat × Nat)),
       (initialState ck disk).failed = [] ∧
       (initialState ck disk).not_found = [] ∧
       (load_checkpoint ck).completed.toFinset ⊆ (initialState ck disk).completed) ∧
    (∀ (c f1 f2 nf1 nf2 : List Nat) (disk : List (Nat × Nat)),
       initialState (some ⟨c, f1, nf1⟩) disk = initialState (some ⟨c, f2, nf2⟩) disk) ∧
    (∀ (ck : Option CheckpointData) (disk : List (Nat × Nat))
       (bs : List (List (Nat × String × String))) (st : OState),
       st ∈ savedStates (initialState ck disk) bs →
       (load_checkpoint ck).completed.toFinset ⊆ st.completed ∧
       (∀ n ∈ st.failed, ∃ b ∈ bs, ∃ r ∈ b, r.1 = n) ∧
       (∀ n ∈ st.not_found, ∃ b ∈ bs, ∃ r ∈ b, r.1 = n)) := by
  refine ⟨rfl, ?_, ?_, ?_⟩
  · intro ck disk
    exact ⟨rfl, rfl, Finset.subset_union_left⟩
  · intro c f1 f2 nf1 nf2 disk
    rfl
  · intro ck disk bs st hst
    have h := savedStates_spec bs (initialState ck disk) st hst
    refine ⟨Finset.Subset.trans Finset.subset_union_left h.1, ?_, ?_⟩
    · intro n hn
      rcases h.2.1 n hn with h2 | h2
      · exact absurd h2 (by simp [initialState])
      · exact h2
    · intro n hn
      rcases h.2.2 n hn with h2 | h2
      · exact absurd h2 (by simp [initialState])
      · exact h2

/-- Witness for C9 on a one-batch run: the previous run's failed (9) and
not_found (8) are discarded, the loaded completed (1) persists, and the
saved failed list only holds the current run's failure (3). -/
theorem c9_only_completed_cumulative_witness :
    (processResults (initialState (some ⟨[1], [9], [8]⟩) [])
        [(2, "success", "ok"), (3, "failed", "x")]) ∈
      savedStates (initialState (some ⟨[1], [9], [8]⟩) [])
        [[(2, "success", "ok"), (3, "failed", "x")]] ∧
    (load_checkpoint (some ⟨[1], [9], [8]⟩)).completed.toFinset ⊆
      (processResults (initialState (some ⟨[1], [9], [8]⟩) [])
        [(2, "success", "ok"), (3, "failed", "x")]).completed :=
  ⟨List.mem_cons_self _ _,
   (c9_only_completed_cumulative.2.2.2 (some ⟨[1], [9], [8]⟩) []
      [[(2, "success", "ok"), (3, "failed", "x")]] _ (List.mem_cons_self _ _)).1⟩

end DojDL

/-! ## Claim C10 -/

namespace CdnUp

/-- Running the upload loop across `j` retry-family outcomes (5xx, timeout
or exception, none on the last allowed iteration) sleeps
`RETRY_BACKOFF ^ retry` once per outcome and continues. -/
theorem uploadLoop_skip (trace : Nat → UResp) (attempt : Nat) :
    ∀ (j retry : Nat) (sleeps : List ℚ) (ops : List DbOp),
      retry + j < MAX_RETRIES →
      (∀ k, retry ≤ k → k < retry + j → isRetryCase (trace k)) →
      uploadLoop trace attempt (MAX_RETRIES - retry) retry sleeps ops =
        uploadLoop trace attempt (MAX_RETRIES - (retry + j)) (retry + j)
          (sleeps ++ (List.range j).map (fun k => RETRY_BACKOFF ^ (retry + k))) ops := by
  intro j
  induction j with
  | zero =>
    intro retry sleeps ops h1 h2
    simp
  | succ n ih =>
    intro retry sleeps ops h1 h2
    have hstep : uploadLoop trace attempt (MAX_RETRIES - retry) retry sleeps ops =
        uploadLoop trace attempt (MAX_RETRIES - (retry + 1)) (retry + 1)
          (sleeps ++ [RETRY_BACKOFF ^ retry]) ops := by
      have hfuel : MAX_RETRIES - retry = (MAX_RETRIES - (retry + 1)) + 1 := by
        unfold MAX_RETRIES at h1 ⊢
        omega
      rw [hfuel, uploadLoop]
      have hcase := h2 retry le_rfl (by omega)
      cases htr : trace retry with
      | status code =>
        rw [htr] at hcase
        simp only [isRetryCase] at hcase
        simp only [htr]
        rw [if_neg (by omega), if_pos hcase]
      | timeout =>
        simp only [htr]
        rw [if_pos (by unfold MAX_RETRIES at h1 ⊢; omega)]
      | exc =>
        simp only [htr]
        rw [if_pos (by unfold MAX_RETRIES at h1 ⊢; omega)]
    rw [hstep, ih (retry + 1) _ _ (by omega)
      (fun k hk1 hk2 => h2 k (by omega) (by omega))]
    have he : retry + 1 + n = retry + (n + 1) := by omega
    rw [he]
    have hfun : ∀ k : Nat,
        RETRY_BACKOFF ^ (retry + 1 + k) = RETRY_BACKOFF ^ (retry + (k + 1)) := by
      intro k
      have h3 : retry + 1 + k = retry + (k + 1) := by omega
      rw [h3]
    congr 1
    rw [List.append_assoc, List.singleton_append, List.range_succ_eq_map,
      List.map_cons, List.map_map]
    simp only [Function.comp_def, Nat.add_zero, hfun]

/-- A non-final iteration of the upload loop always had a retry-family
outcome: if attempt `r` was followed by a further attempt, the response at
`r` was a 5xx status, a timeout or an exception. -/
theorem uploadLoop_gt_retryCase (trace : Nat → UResp) (attempt : Nat) :
    ∀ (fuel retry : Nat) (sleeps : List ℚ) (ops : List DbOp) (r : Nat),
      retry ≤ r →
      r + 2 ≤ (uploadLoop trace attempt fuel retry sleeps ops).retriesUsed →
      isRetryCase (trace r) := by
  intro fuel
  induction fuel with
  | zero =>
    intro retry sleeps ops r h1 h2
    simp only [uploadLoop] at h2
    omega
  | succ n ih =>
    intro retry sleeps ops r h1 h2
    rw [uploadLoop] at h2
    cases htr : trace retry with
    | status code =>
      simp only [htr] at h2
      by_cases hsucc : code = 200 ∨ code = 201
      · rw [if_pos hsucc] at h2
        simp only at h2
        omega
      · rw [if_neg hsucc] at h2
        by_cases h5 : 500 ≤ code
        · rw [if_pos h5] at h2
          by_cases hr : r = retry
          · subst hr
            rw [htr]
            simpa [isRetryCase] using h5
          · exact ih (retry + 1) _ _ r (by omega) h2
        · rw [if_neg h5] at h2
          simp only at h2
          omega
    | timeout =>
      simp only [htr] at h2
      by_cases hlast : retry < MAX_RETRIES - 1
      · rw [if_pos hlast] at h2
        by_cases hr : r = retry
        · subst hr
          rw [htr]
          simp [isRetryCase]
        · exact ih (retry + 1) _ _ r (by omega) h2
      · rw [if_neg hlast] at h2
        simp only at h2
        omega
    | exc =>
      simp only [htr] at h2
      by_cases hlast : retry < MAX_RETRIES - 1
      · rw [if_pos hlast] at h2
        by_cases hr : r = retry
        · subst hr
          rw [htr]
          simp [isRetryCase]
        · exact ih (retry + 1) _ _ r (by omega) h2
      · rw [if_neg hlast] at h2
        simp only at h2
        omega

/-- C10: in the CDN uploader, an attempt whose HTTP status is neither 200
nor 201 and is below 500 — any client error — is terminal on first
occurrence: `upload_file` records the failure in the tracking database and
returns an unsuccessful result at that attempt, with no sleep for it and
no further retry (sleeps recorded equal exactly one per preceding
retry-family attempt); and only 5xx statuses, timeouts and other
exceptions ever lead to a further attempt. -/
theorem c10_client_error_terminal :
    (∀ (trace : Nat → UResp) (attempt r : Nat),
       r < MAX_RETRIES →
       (∀ k, k < r → isRetryCase (trace k)) →
       isClientError (trace r) →
       upload_file trace attempt =
         ⟨false, attempt + r, r + 1,
          (List.range r).map (fun k => RETRY_BACKOFF ^ k),
          [DbOp.markFailed (attempt + r)]⟩) ∧
    (∀ (trace : Nat → UResp) (attempt r : Nat),
       r + 2 ≤ (upload_file trace attempt).retriesUsed →
       isRetryCase (trace r)) := by
  constructor
  · intro trace attempt r hr hpre hce
    show uploadLoop trace attempt (MAX_RETRIES - 0) 0 [] [] = _
    rw [uploadLoop_skip trace attempt r 0 [] [] (by omega)
      (fun k hk1 hk2 => hpre k (by omega))]
    have hfuel : MAX_RETRIES - (0 + r) = (MAX_RETRIES - r - 1) + 1 := by
      unfold MAX_RETRIES at hr ⊢
      omega
    rw [hfuel, uploadLoop]
    cases htr : trace r with
    | status code =>
      rw [htr] at hce
      simp only [isClientError] at hce
      have h0r : (0 : Nat) + r = r := by omega
      simp only [h0r, htr]
      rw [if_neg hce.1, if_neg (by omega)]
      simp
    | timeout => rw [htr] at hce; simp [isClientError] at hce
    | exc => rw [htr] at hce; simp [isClientError] at hce
  · intro trace attempt r h
    exact uploadLoop_gt_retryCase trace attempt MAX_RETRIES 0 [] [] r (by omega) h

/-- Witness for C10: a 503 on the first attempt (one backoff sleep) and a
403 on the second make the upload terminate at the second attempt with a
failure mark, and the first attempt's outcome is in the retry family. -/
theorem c10_client_error_terminal_witness :
    ((1 : Nat) < MAX_RETRIES ∧
     (∀ k, k < 1 → isRetryCase ((fun k => if k = 0 then UResp.status 503 else UResp.status 403) k)) ∧
     isClientError ((fun k => if k = 0 then UResp.status 503 else UResp.status 403) 1) ∧
     upload_file (fun k => if k = 0 then UResp.status 503 else UResp.status 403) 0 =
       ⟨false, 1, 2, [1], [DbOp.markFailed 1]⟩) ∧
    ((0 : Nat) + 2 ≤ (upload_file (fun k => if k = 0 then UResp.status 503 else UResp.status 403) 0).retriesUsed ∧
     isRetryCase ((fun k => if k = 0 then UResp.status 503 else UResp.status 403) 0)) := by
  have h := c10_client_error_terminal.1
    (fun k => if k = 0 then UResp.status 503 else UResp.status 403) 0 1
    (by decide) (by decide) (by decide)
  refine ⟨⟨by decide, by decide, by decide, ?_⟩, ⟨?_, ?_⟩⟩
  · rw [h]
    norm_num [RETRY_BACKOFF, List.range_succ]
  · rw [h]
  · exact c10_client_error_terminal.2
      (fun k => if k = 0 then UResp.status 503 else UResp.status 403) 0 0
      (by rw [h])

end CdnUp
